import Mathlib

/-
  Verification development for the 3DAIGC-API repository.

  Shallow embedding of:
  - `src/core/models/retopo_models.py` (MeshRetopologyModel)
  - `src/core/models/uv_models.py` (UVUnwrappingModel)
  - the GPU resource tracker described in the design document (its
    implementation is not among the sources, so it is modelled from the spec)
  - the image-resize logic of `upload_image` in `src/generate_3d_hunyuan.py`

  Python dictionaries of heterogeneous values are embedded as structures whose
  fields are the keys the code actually reads (absent key = `Option.none`);
  Python exceptions become an `Except` error type; the filesystem is an
  existence predicate on paths; Python floats are embedded as exact rationals
  (the embedded code only stores and compares them, it never does float
  arithmetic on them, except in `upload_image` where the ratio arithmetic is
  carried out in ℚ).
-/

namespace ThreeDAIGC

/-- A Python value as it may appear in an `inputs: Dict[str, Any]` mapping:
a string, an integer, a float (embedded as an exact rational), or `None`. -/
inductive PyVal where
  | str (s : String)
  | int (n : Int)
  | rat (q : ℚ)
  | none
deriving DecidableEq, Repr

/-- Python `str.lower()`: lowercase every character (ASCII case folding,
which covers file extensions). -/
def pyLower (s : String) : String := ⟨s.data.map Char.toLower⟩

/-- Python `str.lstrip(".")`: drop every leading dot. -/
def pyLstripDot (s : String) : String := ⟨s.data.dropWhile (fun c => c = '.')⟩

/-- Python `v in xs` where `xs : List[str]`: only a string can be a member. -/
def pyValMem (v : PyVal) (xs : List String) : Bool :=
  match v with
  | .str s => xs.contains s
  | _ => false

/-- Rendering of a `PyVal` inside an f-string. In every reachable use the
value has already passed a membership test against a list of strings, so only
the `.str` case matters; the other cases mirror Python `str()` where exact. -/
def fstr (v : PyVal) : String :=
  match v with
  | .str s => s
  | .int n => toString n
  | .rat q => toString q
  | .none => "None"

/-- A `pathlib.Path` value, abstracted into the three components the embedded
code reads: `str(p.parent)`, `p.stem`, and `p.suffix` (the final extension
including its leading dot, `""` when there is none). `str(p.parent / name)`
is embedded as `parent ++ "/" ++ name`. -/
structure PyPath where
  parent : String
  stem : String
  suffix : String
deriving DecidableEq, Repr

/-- `str(p)` for the embedded path. -/
def PyPath.render (p : PyPath) : String := p.parent ++ "/" ++ p.stem ++ p.suffix

/-- `mesh_path.suffix.lower().lstrip(".")` from `_process_request`. -/
def inputFormatOf (p : PyPath) : String := pyLstripDot (pyLower p.suffix)

/-- The exceptions raised by `_process_request`, one constructor per `raise`
site, each carrying the exact message it is raised with. `missingRequired`,
`unsupportedInputFormat` and `unsupportedOutputFormat` are the three
`raise ValueError(...)` sites; `fileNotFound` is the
`raise FileNotFoundError(...)` site. -/
inductive PyErr where
  | missingRequired (msg : String)
  | fileNotFound (msg : String)
  | unsupportedInputFormat (msg : String)
  | unsupportedOutputFormat (msg : String)
deriving DecidableEq, Repr

/-- The Python exception class of an embedded exception: `True` for the
`ValueError` sites, `False` for `FileNotFoundError` (which subclasses
`OSError`, not `ValueError`). -/
def PyErr.isValueErrorClass (e : PyErr) : Bool :=
  match e with
  | .fileNotFound _ => false
  | _ => true

/-- `True` exactly when the call raised a `ValueError`. -/
def isValueError {α : Type} (e : Except PyErr α) : Bool :=
  match e with
  | .error err => err.isValueErrorClass
  | .ok _ => false

/-- `True` exactly when the call raised a `FileNotFoundError`. -/
def isFileNotFound {α : Type} (e : Except PyErr α) : Bool :=
  match e with
  | .error (.fileNotFound _) => true
  | _ => false

/-- `True` exactly when the call returned a result without raising. -/
def isOk {α : Type} (e : Except PyErr α) : Bool :=
  match e with
  | .ok _ => true
  | _ => false

/-- The returned result, `Option.none` when an exception was raised. -/
def resultOf {α : Type} (e : Except PyErr α) : Option α :=
  match e with
  | .ok r => some r
  | .error _ => Option.none

/-- The raised exception, `Option.none` when a result was returned. -/
def errorOf {α : Type} (e : Except PyErr α) : Option PyErr :=
  match e with
  | .ok _ => Option.none
  | .error err => some err

/-- `True` exactly on the `Unsupported input format` `ValueError`. -/
def isUnsupportedInputError {α : Type} (e : Except PyErr α) : Bool :=
  match e with
  | .error (.unsupportedInputFormat _) => true
  | _ => false

/-- `True` exactly on the `Unsupported output format` `ValueError`. -/
def isUnsupportedOutputError {α : Type} (e : Except PyErr α) : Bool :=
  match e with
  | .error (.unsupportedOutputFormat _) => true
  | _ => false

/-- A single ASCII apostrophe, used by Python list `repr`. -/
def sq : String := String.mk [Char.ofNat 39]

/-- Python `repr` of a list of strings, as interpolated by an f-string. -/
def pyListRepr (xs : List String) : String :=
  "[" ++ String.intercalate ", " (xs.map (fun s => sq ++ s ++ sq)) ++ "]"

/-! ## MeshRetopologyModel (`src/core/models/retopo_models.py`) -/

/-- The attributes of a `MeshRetopologyModel` instance. `status` is the
base-class lifecycle status (base.py is not among the sources; per the design
document it is one of UNLOADED/LOADING/LOADED/UNLOADING/ERROR, kept here as a
string because `_process_request` never reads it). -/
structure MeshRetopologyModel where
  model_id : String
  model_path : String
  vram_requirement : Int
  status : String
  supported_input_formats : List String
  supported_output_formats : List String
  target_vertex_count : Option Int
deriving DecidableEq, Repr

/-- Python `xs or default` for an optional list argument: `None` and the empty
list are both falsy, so both select the default. -/
def pyOrList (xs : Option (List String)) (d : List String) : List String :=
  match xs with
  | .none => d
  | .some l => if l = [] then d else l

/-- The `MeshRetopologyModel.__init__` constructor. -/
def mkMeshRetopologyModel (model_id model_path : String) (vram_requirement : Int)
    (supported_input_formats supported_output_formats : Option (List String))
    (target_vertex_count : Option Int) : MeshRetopologyModel :=
  { model_id := model_id
    model_path := model_path
    vram_requirement := vram_requirement
    status := "UNLOADED"
    supported_input_formats :=
      pyOrList supported_input_formats ["obj", "glb", "ply", "stl"]
    supported_output_formats := pyOrList supported_output_formats ["obj", "glb"]
    target_vertex_count := target_vertex_count }

/-- The keys of the `inputs` dictionary that
`MeshRetopologyModel._process_request` reads (`Option.none` = key absent).
`target_vertex_count` is doubly optional: the key may be absent, or present
holding `None` or an integer. `seed` is documented but never read. -/
structure RetopoInputs where
  mesh_path : Option PyPath
  output_format : Option PyVal
  target_vertex_count : Option (Option Int)
  seed : Option PyVal
deriving DecidableEq, Repr

/-- `{"vertices": ..., "faces": ...}` statistics dictionaries. -/
structure MeshStats where
  vertices : Int
  faces : Int
deriving DecidableEq, Repr

/-- The `retopology_info` dictionary of the result. -/
structure RetopologyInfo where
  success : Bool
  target_vertex_count : Option Int
deriving DecidableEq, Repr

/-- The result dictionary of `MeshRetopologyModel._process_request`; its
fields are exactly the keys `output_mesh_path`, `original_stats`,
`output_stats`, `retopology_info` of the returned dict. -/
structure RetopoResult where
  output_mesh_path : String
  original_stats : MeshStats
  output_stats : MeshStats
  retopology_info : RetopologyInfo
deriving DecidableEq, Repr

/-- Python `v or 0` on an integer-or-`None` value. -/
def pyOrZero (v : Option Int) : Int :=
  match v with
  | .none => 0
  | .some n => if n = 0 then 0 else n

/-- `inputs.get("output_format", "obj")`. -/
def resolvedOutputFormat (output_format : Option PyVal) : PyVal :=
  output_format.getD (.str "obj")

/-- `MeshRetopologyModel._process_request(inputs)`. `fs p = true` embeds
`Path(p).exists()`. Checks happen in source order: missing `mesh_path`,
nonexistent file, unsupported (lowercased) input extension, unsupported
output format; then the result dictionary is built. -/
def MeshRetopologyModel.process_request (m : MeshRetopologyModel)
    (fs : PyPath → Bool) (inputs : RetopoInputs) : Except PyErr RetopoResult :=
  match inputs.mesh_path with
  | .none => .error (.missingRequired "mesh_path is required for mesh retopology")
  | .some mesh_path =>
    if fs mesh_path = false then
      .error (.fileNotFound ("Input mesh file not found: " ++ mesh_path.render))
    else
      let input_format := inputFormatOf mesh_path
      if m.supported_input_formats.contains input_format = false then
        .error (.unsupportedInputFormat ("Unsupported input format: " ++ input_format ++
          ". Supported: " ++ pyListRepr m.supported_input_formats))
      else
        let output_format := resolvedOutputFormat inputs.output_format
        if pyValMem output_format m.supported_output_formats = false then
          .error (.unsupportedOutputFormat ("Unsupported output format: " ++ fstr output_format))
        else
          let target_vertex_count : Option Int :=
            match inputs.target_vertex_count with
            | .some v => v
            | .none => m.target_vertex_count
          .ok
            { output_mesh_path := mesh_path.parent ++ "/" ++
                ("retopo_" ++ mesh_path.stem ++ "." ++ fstr output_format)
              original_stats := { vertices := 0, faces := 0 }
              output_stats := { vertices := pyOrZero target_vertex_count, faces := 0 }
              retopology_info :=
                { success := true, target_vertex_count := target_vertex_count } }

/-- The return value of `get_supported_formats`. -/
structure SupportedFormats where
  input : List String
  output : List String
deriving DecidableEq, Repr

/-- `MeshRetopologyModel.get_supported_formats()`. -/
def MeshRetopologyModel.get_supported_formats (m : MeshRetopologyModel) :
    SupportedFormats :=
  { input := m.supported_input_formats, output := m.supported_output_formats }

/-- The dictionary returned by `BaseModel.get_info`. -/
structure BaseInfo where
  model_id : String
  model_path : String
  vram_requirement : Int
  feature_type : String
  status : String
deriving DecidableEq, Repr

/-- Modelled from the spec: `BaseModel.get_info` (base.py is not among the
sources) is side-effect-free introspection returning the model's declared
base attributes — id, weights path, VRAM requirement, feature type and
current lifecycle status (design document §3, §4.1). -/
def MeshRetopologyModel.get_info (m : MeshRetopologyModel) : BaseInfo :=
  { model_id := m.model_id
    model_path := m.model_path
    vram_requirement := m.vram_requirement
    feature_type := "mesh_retopology"
    status := m.status }

/-- The dictionary returned by `MeshRetopologyModel.get_model_info`: the base
info updated with the retopology-specific entries. -/
structure RetopoModelInfo where
  base : BaseInfo
  model_type : String
  description : String
  target_vertex_count : Option Int
  capabilities : List String
deriving DecidableEq, Repr

/-- `MeshRetopologyModel.get_model_info()`. -/
def MeshRetopologyModel.get_model_info (m : MeshRetopologyModel) :
    RetopoModelInfo :=
  { base := m.get_info
    model_type := "mesh_retopology"
    description := "Mesh retopology model for optimizing mesh topology"
    target_vertex_count := m.target_vertex_count
    capabilities := ["Polygon reduction", "Topology optimization"] }

/-! ## UVUnwrappingModel (`src/core/models/uv_models.py`) -/

/-- The attributes of a `UVUnwrappingModel` instance; `distortion_threshold`
is a Python float (default `1.25`), embedded as an exact rational since the
code only stores and echoes it. -/
structure UVUnwrappingModel where
  model_id : String
  model_path : String
  vram_requirement : Int
  status : String
  supported_input_formats : List String
  supported_output_formats : List String
  distortion_threshold : ℚ
deriving DecidableEq, Repr

/-- The `UVUnwrappingModel.__init__` constructor. -/
def mkUVUnwrappingModel (model_id model_path : String) (vram_requirement : Int)
    (supported_input_formats supported_output_formats : Option (List String))
    (distortion_threshold : ℚ) : UVUnwrappingModel :=
  { model_id := model_id
    model_path := model_path
    vram_requirement := vram_requirement
    status := "UNLOADED"
    supported_input_formats := pyOrList supported_input_formats ["obj", "glb"]
    supported_output_formats := pyOrList supported_output_formats ["obj", "glb"]
    distortion_threshold := distortion_threshold }

/-- The keys of the `inputs` dictionary that
`UVUnwrappingModel._process_request` reads. `save_individual_parts` is
documented but never read. -/
structure UVInputs where
  mesh_path : Option PyPath
  output_format : Option PyVal
  distortion_threshold : Option PyVal
  pack_method : Option PyVal
  save_individual_parts : Option PyVal
deriving DecidableEq, Repr

/-- The `uv_info` dictionary of the result. -/
structure UVInfo where
  success : Bool
  distortion_threshold : PyVal
  pack_method : PyVal
deriving DecidableEq, Repr

/-- The result dictionary of `UVUnwrappingModel._process_request`; its fields
are exactly the keys `output_mesh_path`, `packed_mesh_path`, `num_components`,
`distortion`, `uv_info` of the returned dict. -/
structure UVResult where
  output_mesh_path : String
  packed_mesh_path : Option String
  num_components : Int
  distortion : ℚ
  uv_info : UVInfo
deriving DecidableEq, Repr

/-- `UVUnwrappingModel._process_request(inputs)`: same validation sequence as
the retopology model, then the result dictionary with the `uv_` output name,
echoing the resolved `distortion_threshold` and `pack_method`. -/
def UVUnwrappingModel.process_request (m : UVUnwrappingModel)
    (fs : PyPath → Bool) (inputs : UVInputs) : Except PyErr UVResult :=
  match inputs.mesh_path with
  | .none => .error (.missingRequired "mesh_path is required for UV unwrapping")
  | .some mesh_path =>
    if fs mesh_path = false then
      .error (.fileNotFound ("Input mesh file not found: " ++ mesh_path.render))
    else
      let input_format := inputFormatOf mesh_path
      if m.supported_input_formats.contains input_format = false then
        .error (.unsupportedInputFormat ("Unsupported input format: " ++ input_format ++
          ". Supported: " ++ pyListRepr m.supported_input_formats))
      else
        let output_format := resolvedOutputFormat inputs.output_format
        if pyValMem output_format m.supported_output_formats = false then
          .error (.unsupportedOutputFormat ("Unsupported output format: " ++ fstr output_format))
        else
          let distortion_threshold : PyVal :=
            inputs.distortion_threshold.getD (.rat m.distortion_threshold)
          let pack_method : PyVal := inputs.pack_method.getD (.str "blender")
          .ok
            { output_mesh_path := mesh_path.parent ++ "/" ++
                ("uv_" ++ mesh_path.stem ++ "." ++ fstr output_format)
              packed_mesh_path := Option.none
              num_components := 0
              distortion := 0
              uv_info :=
                { success := true
                  distortion_threshold := distortion_threshold
                  pack_method := pack_method } }

/-- `UVUnwrappingModel.get_supported_formats()`. -/
def UVUnwrappingModel.get_supported_formats (m : UVUnwrappingModel) :
    SupportedFormats :=
  { input := m.supported_input_formats, output := m.supported_output_formats }

/-- Modelled from the spec: `BaseModel.get_info` (base.py is not among the
sources), instantiated for the UV model with `feature_type="uv_unwrapping"`
as passed by `UVUnwrappingModel.__init__`. -/
def UVUnwrappingModel.get_info (m : UVUnwrappingModel) : BaseInfo :=
  { model_id := m.model_id
    model_path := m.model_path
    vram_requirement := m.vram_requirement
    feature_type := "uv_unwrapping"
    status := m.status }

/-- The dictionary returned by `UVUnwrappingModel.get_model_info`. -/
structure UVModelInfo where
  base : BaseInfo
  model_type : String
  description : String
  distortion_threshold : ℚ
  capabilities : List String
deriving DecidableEq, Repr

/-- `UVUnwrappingModel.get_model_info()`. -/
def UVUnwrappingModel.get_model_info (m : UVUnwrappingModel) : UVModelInfo :=
  { base := m.get_info
    model_type := "uv_unwrapping"
    description := "UV unwrapping model for generating optimized UV coordinates"
    distortion_threshold := m.distortion_threshold
    capabilities :=
      ["Part-based unwrapping", "Distortion minimization", "UV packing"] }

/-! ## GPU resource tracker (modelled from the spec)

The GPU Resource Tracker is part of the core described by the design document
but its implementation is not among the sources (only the model stubs are), so
it is modelled from the specification text of §3 and §4.2. -/

/-- Modelled from the spec: the per-GPU ledger — `total_vram`,
`allocated_vram`, and the set of resident models, each recorded with the VRAM
requirement it was reserved with (§3 "GPU"). -/
structure GPUState where
  total_vram : Nat
  allocated_vram : Nat
  resident_models : List (String × Nat)
deriving DecidableEq, Repr

/-- Σ `vram_requirement` over the resident models of a GPU. -/
def GPUState.residentVRAM (g : GPUState) : Nat :=
  (g.resident_models.map Prod.snd).sum

/-- Modelled from the spec: the operations that touch the ledger. `load` and
`unload` of a model reach the tracker only through the Registry, which calls
`reserve` on load and `release` on unload (§4.1, §4.3), so they carry the same
ledger effect as the tracker calls they make. -/
inductive GPUOp where
  | reserve (model_id : String) (vram : Nat)
  | release (model_id : String)
  | load (model_id : String) (vram : Nat)
  | unload (model_id : String)
deriving DecidableEq, Repr

/-- Modelled from the spec: `reserve(gpu_id, model_id, vram_requirement)`
atomically increments `allocated_vram` and records residency, failing with
`InsufficientVRAMError` (ledger unchanged) if admission would violate
`allocated_vram ≤ total_vram` (§4.2); a model already resident is loaded at
most once (`load` is an idempotent no-op when already loaded, §4.1). -/
def GPUState.reserve (g : GPUState) (model_id : String) (vram : Nat) : GPUState :=
  if g.resident_models.any (fun r => r.1 = model_id) then g
  else if g.allocated_vram + vram ≤ g.total_vram then
    { g with
      allocated_vram := g.allocated_vram + vram
      resident_models := (model_id, vram) :: g.resident_models }
  else g

/-- Modelled from the spec: `release(gpu_id, model_id)` atomically decrements
`allocated_vram` by the VRAM the model was reserved with and removes its
residency; idempotent — releasing a non-resident model changes nothing
(§4.2). -/
def GPUState.release (g : GPUState) (model_id : String) : GPUState :=
  let freed := ((g.resident_models.filter (fun r => r.1 = model_id)).map Prod.snd).sum
  { g with
    allocated_vram := g.allocated_vram - freed
    resident_models := g.resident_models.filter (fun r => !(r.1 = model_id)) }

/-- One tracker operation applied to the ledger. -/
def GPUState.step (g : GPUState) (op : GPUOp) : GPUState :=
  match op with
  | .reserve model_id vram => g.reserve model_id vram
  | .release model_id => g.release model_id
  | .load model_id vram => g.reserve model_id vram
  | .unload model_id => g.release model_id

/-- The ledger of a fresh GPU: nothing resident, nothing allocated. -/
def initGPU (total_vram : Nat) : GPUState :=
  { total_vram := total_vram, allocated_vram := 0, resident_models := [] }

/-- The ledger after a sequence of operations on a fresh GPU. -/
def runGPU (total_vram : Nat) (ops : List GPUOp) : GPUState :=
  ops.foldl GPUState.step (initGPU total_vram)

/-- The VRAM invariant of §3: the ledger matches the resident set, and never
exceeds the device budget. -/
def GPUInv (g : GPUState) : Prop :=
  g.allocated_vram = g.residentVRAM ∧ g.allocated_vram ≤ g.total_vram

/-! ## Image resize in `upload_image` (`src/generate_3d_hunyuan.py`) -/

/-- The dimension computation of `upload_image`: when either dimension
exceeds 2048 the image is resized to
`(int(width * r), int(height * r))` with `r = min(2048/width, 2048/height)`,
otherwise the dimensions are untouched (the file is uploaded as-is). The
Python float arithmetic is embedded as exact rational arithmetic; `int()` on
these nonnegative values is the floor. -/
def resizeDims (width height : Nat) : Nat × Nat :=
  if 2048 < width ∨ 2048 < height then
    let scale : ℚ := min (2048 / (width : ℚ)) (2048 / (height : ℚ))
    ((⌊(width : ℚ) * scale⌋).toNat, (⌊(height : ℚ) * scale⌋).toNat)
  else (width, height)

/-! ## Concrete fixtures for witnesses and counterexamples -/

/-- A retopology model built with all constructor defaults. -/
def testRetopoModel : MeshRetopologyModel :=
  mkMeshRetopologyModel "retopo_default" "/weights/retopo" 4096
    Option.none Option.none Option.none

/-- A UV model built with all constructor defaults (`distortion_threshold`
keeps its Python default `1.25`). -/
def testUVModel : UVUnwrappingModel :=
  mkUVUnwrappingModel "uv_default" "/weights/uv" 4096
    Option.none Option.none (5/4)

/-- A concrete input path `/data/mesh.obj`. -/
def meshObj : PyPath := ⟨"/data", "mesh", ".obj"⟩

/-- The same file with its extension written upper-case. -/
def meshOBJ : PyPath := ⟨"/data", "mesh", ".OBJ"⟩

/-- Retopology inputs holding only the given mesh path and output format. -/
def retopoIn (p : PyPath) (ofmt : Option PyVal) : RetopoInputs :=
  { mesh_path := some p, output_format := ofmt,
    target_vertex_count := Option.none, seed := Option.none }

/-- UV inputs holding only the given mesh path and output format. -/
def uvIn (p : PyPath) (ofmt : Option PyVal) : UVInputs :=
  { mesh_path := some p, output_format := ofmt,
    distortion_threshold := Option.none, pack_method := Option.none,
    save_individual_parts := Option.none }

/-! ## Helper lemmas -/

/-- Python `v or 0` agrees with "the value, defaulting `None` to 0". -/
theorem pyOrZero_eq_getD (v : Option Int) : pyOrZero v = v.getD 0 := by
  rcases v with _ | n
  · rfl
  · by_cases h : n = 0 <;> simp [pyOrZero, h]

/-- Splitting the resident-VRAM sum of a GPU along one model id. -/
theorem sum_filter_split (l : List (String × Nat)) (mid : String) :
    ((l.filter (fun r => r.1 = mid)).map Prod.snd).sum +
      ((l.filter (fun r => !(r.1 = mid))).map Prod.snd).sum =
      (l.map Prod.snd).sum := by
  induction l with
  | nil => simp
  | cons a t ih =>
    by_cases h : a.1 = mid <;> simp [List.filter_cons, h] <;> omega

/-- Every single tracker operation preserves the VRAM invariant. -/
theorem GPUInv_step (g : GPUState) (op : GPUOp) (hg : GPUInv g) :
    GPUInv (g.step op) := by
  obtain ⟨hsum, hle⟩ := hg
  have reserve_case : ∀ mid v, GPUInv (g.reserve mid v) := by
    intro mid v
    unfold GPUState.reserve
    by_cases hres : g.resident_models.any (fun r => r.1 = mid)
    · simp only [hres, if_true]
      exact ⟨hsum, hle⟩
    · simp only [hres, if_false]
      by_cases hfit : g.allocated_vram + v ≤ g.total_vram
      · simp only [hfit, if_true]
        refine ⟨?_, hfit⟩
        simp [GPUState.residentVRAM, hsum]
        omega
      · simp only [hfit, if_false]
        exact ⟨hsum, hle⟩
  have release_case : ∀ mid, GPUInv (g.release mid) := by
    intro mid
    unfold GPUState.release
    have hsplit := sum_filter_split g.resident_models mid
    constructor
    · simp only [GPUState.residentVRAM] at *
      omega
    · simp only []
      exact le_trans (Nat.sub_le _ _) hle
  cases op with
  | reserve mid v => exact reserve_case mid v
  | release mid => exact release_case mid
  | load mid v => exact reserve_case mid v
  | unload mid => exact release_case mid

/-- The invariant holds along any operation sequence from an invariant state. -/
theorem GPUInv_foldl (ops : List GPUOp) :
    ∀ g : GPUState, GPUInv g → GPUInv (ops.foldl GPUState.step g) := by
  induction ops with
  | nil => intro g hg; exact hg
  | cons op rest ih =>
    intro g hg
    exact ih (g.step op) (GPUInv_step g op hg)

/-! ## Claim theorems -/

/-- C7: For every GPU and every reachable state of the system (after any
sequence of reserve, release, load, and unload operations), the GPU's
`allocated_vram` equals the sum of `vram_requirement` over its resident
models, and `allocated_vram` never exceeds `total_vram`. (Tracker modelled
from the spec, §3/§4.2 — its implementation is not among the sources.) -/
theorem gpu_vram_invariant (total_vram : Nat) (ops : List GPUOp) :
    GPUInv (runGPU total_vram ops) := by
  apply GPUInv_foldl
  exact ⟨rfl, Nat.zero_le _⟩

/-- C2: Whenever the inputs contain `mesh_path` but the path does not resolve
to an existing file, `_process_request` of both models raises
`FileNotFoundError` — whatever the extension and requested output format —
and never returns a result. -/
theorem missing_file_raises_not_found (mr : MeshRetopologyModel)
    (mu : UVUnwrappingModel) (fs : PyPath → Bool) (ri : RetopoInputs)
    (ui : UVInputs) (p q : PyPath) (hrp : ri.mesh_path = some p)
    (hup : ui.mesh_path = some q) (hrex : fs p = false) (huex : fs q = false) :
    mr.process_request fs ri =
        .error (.fileNotFound ("Input mesh file not found: " ++ p.render)) ∧
      mu.process_request fs ui =
        .error (.fileNotFound ("Input mesh file not found: " ++ q.render)) := by
  constructor
  · simp [MeshRetopologyModel.process_request, hrp, hrex]
  · simp [UVUnwrappingModel.process_request, hup, huex]

/-- Witness for C2 at a concrete nonexistent file. -/
theorem missing_file_raises_not_found_witness :
    (mkMeshRetopologyModel "m" "/w" 1 Option.none Option.none
          Option.none).process_request (fun _ => false)
        { mesh_path := some ⟨"/data", "mesh", ".obj"⟩,
          output_format := Option.none, target_vertex_count := Option.none,
          seed := Option.none } =
      .error (.fileNotFound "Input mesh file not found: /data/mesh.obj") ∧
    (mkUVUnwrappingModel "u" "/w" 1 Option.none Option.none
          (5/4)).process_request (fun _ => false)
        { mesh_path := some ⟨"/data", "mesh", ".obj"⟩,
          output_format := Option.none, distortion_threshold := Option.none,
          pack_method := Option.none, save_individual_parts := Option.none } =
      .error (.fileNotFound "Input mesh file not found: /data/mesh.obj") := by
  have h := missing_file_raises_not_found
    (mkMeshRetopologyModel "m" "/w" 1 Option.none Option.none Option.none)
    (mkUVUnwrappingModel "u" "/w" 1 Option.none Option.none (5/4))
    (fun _ => false)
    { mesh_path := some ⟨"/data", "mesh", ".obj"⟩,
      output_format := Option.none, target_vertex_count := Option.none,
      seed := Option.none }
    { mesh_path := some ⟨"/data", "mesh", ".obj"⟩,
      output_format := Option.none, distortion_threshold := Option.none,
      pack_method := Option.none, save_individual_parts := Option.none }
    ⟨"/data", "mesh", ".obj"⟩ ⟨"/data", "mesh", ".obj"⟩ rfl rfl rfl rfl
  exact h

/-- C1 counterexample: with `mesh_path` present but the file nonexistent and
an unsupported `output_format` ("xyz"), the claimed right-hand side of the
biconditional holds (the requested output format is not supported), yet the
call raises `FileNotFoundError`, not `ValueError` — for both models. So
"raises ValueError iff mesh_path absent, or extension unsupported, or
output_format unsupported" is false as stated. -/
theorem validation_error_iff_counterexample :
    pyValMem (resolvedOutputFormat (some (PyVal.str "xyz")))
        testRetopoModel.supported_output_formats = false ∧
      isValueError (testRetopoModel.process_request (fun _ => false)
        (retopoIn meshObj (some (PyVal.str "xyz")))) = false ∧
      isFileNotFound (testRetopoModel.process_request (fun _ => false)
        (retopoIn meshObj (some (PyVal.str "xyz")))) = true ∧
      pyValMem (resolvedOutputFormat (some (PyVal.str "xyz")))
        testUVModel.supported_output_formats = false ∧
      isValueError (testUVModel.process_request (fun _ => false)
        (uvIn meshObj (some (PyVal.str "xyz")))) = false ∧
      isFileNotFound (testUVModel.process_request (fun _ => false)
        (uvIn meshObj (some (PyVal.str "xyz")))) = true := by
  decide

/-- C1 (amended): `_process_request` of both models raises `ValueError` iff
`mesh_path` is absent, or the file exists and its lowercased extension is not
among `supported_input_formats` or the requested `output_format` (default
`"obj"`) is not among `supported_output_formats`; and it returns a result iff
`mesh_path` names an existing file and both format checks pass. (When the
file does not exist the call raises `FileNotFoundError` instead, whatever the
output format.) -/
theorem validation_error_characterization (mr : MeshRetopologyModel)
    (mu : UVUnwrappingModel) (fs : PyPath → Bool) (ri : RetopoInputs)
    (ui : UVInputs) :
    ((isValueError (mr.process_request fs ri) = true ↔
        ri.mesh_path = Option.none ∨
          ∃ p, ri.mesh_path = some p ∧ fs p = true ∧
            (mr.supported_input_formats.contains (inputFormatOf p) = false ∨
              pyValMem (resolvedOutputFormat ri.output_format)
                mr.supported_output_formats = false)) ∧
      (isOk (mr.process_request fs ri) = true ↔
        ∃ p, ri.mesh_path = some p ∧ fs p = true ∧
          mr.supported_input_formats.contains (inputFormatOf p) = true ∧
          pyValMem (resolvedOutputFormat ri.output_format)
            mr.supported_output_formats = true)) ∧
    ((isValueError (mu.process_request fs ui) = true ↔
        ui.mesh_path = Option.none ∨
          ∃ p, ui.mesh_path = some p ∧ fs p = true ∧
            (mu.supported_input_formats.contains (inputFormatOf p) = false ∨
              pyValMem (resolvedOutputFormat ui.output_format)
                mu.supported_output_formats = false)) ∧
      (isOk (mu.process_request fs ui) = true ↔
        ∃ p, ui.mesh_path = some p ∧ fs p = true ∧
          mu.supported_input_formats.contains (inputFormatOf p) = true ∧
          pyValMem (resolvedOutputFormat ui.output_format)
            mu.supported_output_formats = true)) := by
  constructor
  · rcases hmp : ri.mesh_path with _ | p
    · simp [MeshRetopologyModel.process_request, hmp, isValueError,
        PyErr.isValueErrorClass, isOk]
    · cases hfs : fs p
      · simp [MeshRetopologyModel.process_request, hmp, hfs, isValueError,
          PyErr.isValueErrorClass, isOk]
      · by_cases hin : inputFormatOf p ∈ mr.supported_input_formats
        · cases hout : pyValMem (resolvedOutputFormat ri.output_format)
              mr.supported_output_formats
          · simp [MeshRetopologyModel.process_request, hmp, hfs, hin, hout,
              isValueError, PyErr.isValueErrorClass, isOk]
          · simp [MeshRetopologyModel.process_request, hmp, hfs, hin, hout,
              isValueError, PyErr.isValueErrorClass, isOk]
        · simp [MeshRetopologyModel.process_request, hmp, hfs, hin,
            isValueError, PyErr.isValueErrorClass, isOk]
  · rcases hmp : ui.mesh_path with _ | p
    · simp [UVUnwrappingModel.process_request, hmp, isValueError,
        PyErr.isValueErrorClass, isOk]
    · cases hfs : fs p
      · simp [UVUnwrappingModel.process_request, hmp, hfs, isValueError,
          PyErr.isValueErrorClass, isOk]
      · by_cases hin : inputFormatOf p ∈ mu.supported_input_formats
        · cases hout : pyValMem (resolvedOutputFormat ui.output_format)
              mu.supported_output_formats
          · simp [UVUnwrappingModel.process_request, hmp, hfs, hin, hout,
              isValueError, PyErr.isValueErrorClass, isOk]
          · simp [UVUnwrappingModel.process_request, hmp, hfs, hin, hout,
              isValueError, PyErr.isValueErrorClass, isOk]
        · simp [UVUnwrappingModel.process_request, hmp, hfs, hin,
            isValueError, PyErr.isValueErrorClass, isOk]

/-- C3: On validated inputs, `_process_request` returns the result dictionary
(whose fields are `output_mesh_path`/`original_stats`/`output_stats`/
`retopology_info` for retopology and `output_mesh_path`/`packed_mesh_path`/
`num_components`/`distortion`/`uv_info` for UV, by the shape of
`RetopoResult` and `UVResult`), and `output_mesh_path` is the input's parent
directory joined with `"retopo_"` (resp. `"uv_"`), the input stem, and the
requested output format as extension. -/
theorem valid_inputs_result_structure (mr : MeshRetopologyModel)
    (mu : UVUnwrappingModel) (fs : PyPath → Bool) (ri : RetopoInputs)
    (ui : UVInputs) (p q : PyPath) (s t : String)
    (hrp : ri.mesh_path = some p) (hrex : fs p = true)
    (hrin : mr.supported_input_formats.contains (inputFormatOf p) = true)
    (hrof : resolvedOutputFormat ri.output_format = .str s)
    (hrout : mr.supported_output_formats.contains s = true)
    (hup : ui.mesh_path = some q) (huex : fs q = true)
    (huin : mu.supported_input_formats.contains (inputFormatOf q) = true)
    (huof : resolvedOutputFormat ui.output_format = .str t)
    (huout : mu.supported_output_formats.contains t = true) :
    (∃ r, mr.process_request fs ri = .ok r ∧
      r.output_mesh_path = p.parent ++ "/" ++ ("retopo_" ++ p.stem ++ "." ++ s)) ∧
    ∃ r, mu.process_request fs ui = .ok r ∧
      r.output_mesh_path = q.parent ++ "/" ++ ("uv_" ++ q.stem ++ "." ++ t) := by
  have hrin' : inputFormatOf p ∈ mr.supported_input_formats := by
    simpa using hrin
  have huin' : inputFormatOf q ∈ mu.supported_input_formats := by
    simpa using huin
  have hrout' : s ∈ mr.supported_output_formats := by simpa using hrout
  have huout' : t ∈ mu.supported_output_formats := by simpa using huout
  constructor
  · simp [MeshRetopologyModel.process_request, hrp, hrex, hrin', hrof,
      pyValMem, hrout', fstr]
  · simp [UVUnwrappingModel.process_request, hup, huex, huin', huof,
      pyValMem, huout', fstr]

/-- Witness for C3 at `/data/mesh.obj` with the default output format. -/
theorem valid_inputs_result_structure_witness :
    (∃ r, testRetopoModel.process_request (fun _ => true)
        (retopoIn meshObj Option.none) = .ok r ∧
      r.output_mesh_path = "/data" ++ "/" ++ ("retopo_" ++ "mesh" ++ "." ++ "obj")) ∧
    ∃ r, testUVModel.process_request (fun _ => true)
        (uvIn meshObj Option.none) = .ok r ∧
      r.output_mesh_path = "/data" ++ "/" ++ ("uv_" ++ "mesh" ++ "." ++ "obj") := by
  exact valid_inputs_result_structure testRetopoModel testUVModel
    (fun _ => true) (retopoIn meshObj Option.none) (uvIn meshObj Option.none)
    meshObj meshObj "obj" "obj"
    rfl rfl (by decide) rfl (by decide)
    rfl rfl (by decide) rfl (by decide)

/-- C4: Input-extension matching is case-insensitive — whenever the
lowercased (dot-stripped) extension of an existing `mesh_path` is among
`supported_input_formats`, neither model raises the unsupported-input-format
`ValueError`, however the extension is written. -/
theorem input_extension_case_insensitive (mr : MeshRetopologyModel)
    (mu : UVUnwrappingModel) (fs : PyPath → Bool) (ri : RetopoInputs)
    (ui : UVInputs) (p q : PyPath)
    (hrp : ri.mesh_path = some p) (hrex : fs p = true)
    (hrin : mr.supported_input_formats.contains (pyLstripDot (pyLower p.suffix)) = true)
    (hup : ui.mesh_path = some q) (huex : fs q = true)
    (huin : mu.supported_input_formats.contains (pyLstripDot (pyLower q.suffix)) = true) :
    isUnsupportedInputError (mr.process_request fs ri) = false ∧
      isUnsupportedInputError (mu.process_request fs ui) = false := by
  have hrin' : pyLstripDot (pyLower p.suffix) ∈ mr.supported_input_formats := by
    simpa using hrin
  have huin' : pyLstripDot (pyLower q.suffix) ∈ mu.supported_input_formats := by
    simpa using huin
  constructor
  · cases hout : pyValMem (resolvedOutputFormat ri.output_format)
        mr.supported_output_formats <;>
      simp [MeshRetopologyModel.process_request, hrp, hrex, inputFormatOf,
        hrin', hout, isUnsupportedInputError]
  · cases hout : pyValMem (resolvedOutputFormat ui.output_format)
        mu.supported_output_formats <;>
      simp [UVUnwrappingModel.process_request, hup, huex, inputFormatOf,
        huin', hout, isUnsupportedInputError]

/-- Witness for C4 at `/data/mesh.OBJ`: the upper-case extension lowers to
`obj`, which both default models support. -/
theorem input_extension_case_insensitive_witness :
    isUnsupportedInputError (testRetopoModel.process_request (fun _ => true)
        (retopoIn meshOBJ Option.none)) = false ∧
      isUnsupportedInputError (testUVModel.process_request (fun _ => true)
        (uvIn meshOBJ Option.none)) = false := by
  exact input_extension_case_insensitive testRetopoModel testUVModel
    (fun _ => true) (retopoIn meshOBJ Option.none) (uvIn meshOBJ Option.none)
    meshOBJ meshOBJ rfl rfl (by decide) rfl rfl (by decide)

/-- C5 counterexample: on the fully valid input file `/data/mesh.obj`, the
output format `"OBJ"` — differing only in case from the supported `"obj"` —
is rejected by both models with the unsupported-output-format `ValueError`:
the output-format check is case-sensitive, unlike the input-extension
check. -/
theorem output_format_case_counterexample :
    testRetopoModel.supported_output_formats.contains "obj" = true ∧
      isUnsupportedOutputError (testRetopoModel.process_request (fun _ => true)
        (retopoIn meshObj (some (PyVal.str "OBJ")))) = true ∧
      testUVModel.supported_output_formats.contains "obj" = true ∧
      isUnsupportedOutputError (testUVModel.process_request (fun _ => true)
        (uvIn meshObj (some (PyVal.str "OBJ")))) = true := by
  decide

/-- C5 (amended): output-format matching is case-sensitive (it does not
follow the case-insensitive convention of the input check): on an otherwise
validated input, `_process_request` of both models accepts the requested
output format iff it is literally — up to no case folding — an element of
`supported_output_formats`, and raises the unsupported-output-format
`ValueError` otherwise. -/
theorem output_format_exact_membership (mr : MeshRetopologyModel)
    (mu : UVUnwrappingModel) (fs : PyPath → Bool) (ri : RetopoInputs)
    (ui : UVInputs) (p q : PyPath)
    (hrp : ri.mesh_path = some p) (hrex : fs p = true)
    (hrin : mr.supported_input_formats.contains (inputFormatOf p) = true)
    (hup : ui.mesh_path = some q) (huex : fs q = true)
    (huin : mu.supported_input_formats.contains (inputFormatOf q) = true) :
    (isOk (mr.process_request fs ri) = true ↔
      pyValMem (resolvedOutputFormat ri.output_format)
        mr.supported_output_formats = true) ∧
    (isUnsupportedOutputError (mr.process_request fs ri) = true ↔
      pyValMem (resolvedOutputFormat ri.output_format)
        mr.supported_output_formats = false) ∧
    (isOk (mu.process_request fs ui) = true ↔
      pyValMem (resolvedOutputFormat ui.output_format)
        mu.supported_output_formats = true) ∧
    (isUnsupportedOutputError (mu.process_request fs ui) = true ↔
      pyValMem (resolvedOutputFormat ui.output_format)
        mu.supported_output_formats = false) := by
  have hrin' : inputFormatOf p ∈ mr.supported_input_formats := by
    simpa using hrin
  have huin' : inputFormatOf q ∈ mu.supported_input_formats := by
    simpa using huin
  refine ⟨?_, ?_, ?_, ?_⟩ <;>
    [cases hout : pyValMem (resolvedOutputFormat ri.output_format)
        mr.supported_output_formats;
     cases hout : pyValMem (resolvedOutputFormat ri.output_format)
        mr.supported_output_formats;
     cases hout : pyValMem (resolvedOutputFormat ui.output_format)
        mu.supported_output_formats;
     cases hout : pyValMem (resolvedOutputFormat ui.output_format)
        mu.supported_output_formats] <;>
    simp [MeshRetopologyModel.process_request, UVUnwrappingModel.process_request,
      hrp, hrex, hrin', hup, huex, huin', hout, isOk, isUnsupportedOutputError]

/-- Witness for C5 (amended): with output format `"glb"` the retopology call
succeeds, and with `"OBJ"` the UV call raises the unsupported-output-format
error. -/
theorem output_format_exact_membership_witness :
    isOk (testRetopoModel.process_request (fun _ => true)
        (retopoIn meshObj (some (PyVal.str "glb")))) = true ∧
      isUnsupportedOutputError (testUVModel.process_request (fun _ => true)
        (uvIn meshObj (some (PyVal.str "OBJ")))) = true := by
  have h := output_format_exact_membership testRetopoModel testUVModel
    (fun _ => true) (retopoIn meshObj (some (PyVal.str "glb")))
    (uvIn meshObj (some (PyVal.str "OBJ"))) meshObj meshObj
    rfl rfl (by decide) rfl rfl (by decide)
  exact ⟨h.1.mpr (by decide), h.2.2.2.mpr (by decide)⟩

/-- C8: in `MeshRetopologyModel._process_request`, a `target_vertex_count`
input key overrides the constructor value; on a validated request the
returned `output_stats["vertices"]` is the resolved target defaulted to 0
when it is `None`, and `retopology_info["target_vertex_count"]` is the
resolved value itself. -/
theorem target_vertex_count_override (mr : MeshRetopologyModel)
    (fs : PyPath → Bool) (ri : RetopoInputs) (p : PyPath) (s : String)
    (hrp : ri.mesh_path = some p) (hrex : fs p = true)
    (hrin : mr.supported_input_formats.contains (inputFormatOf p) = true)
    (hrof : resolvedOutputFormat ri.output_format = .str s)
    (hrout : mr.supported_output_formats.contains s = true) :
    ∃ r, mr.process_request fs ri = .ok r ∧
      r.output_stats.vertices =
        (ri.target_vertex_count.getD mr.target_vertex_count).getD 0 ∧
      r.retopology_info.target_vertex_count =
        ri.target_vertex_count.getD mr.target_vertex_count ∧
      ∀ v, ri.target_vertex_count = some v →
        r.retopology_info.target_vertex_count = v := by
  have hrin' : inputFormatOf p ∈ mr.supported_input_formats := by
    simpa using hrin
  have hrout' : s ∈ mr.supported_output_formats := by simpa using hrout
  rcases htv : ri.target_vertex_count with _ | v <;>
    simp [MeshRetopologyModel.process_request, hrp, hrex, hrin', hrof,
      pyValMem, hrout', htv, pyOrZero_eq_getD]

/-- Witness for C8: the input key `target_vertex_count = 500` overrides an
absent constructor value. -/
theorem target_vertex_count_override_witness :
    ∃ r, testRetopoModel.process_request (fun _ => true)
        { mesh_path := some meshObj, output_format := Option.none,
          target_vertex_count := some (some 500), seed := Option.none } = .ok r ∧
      r.output_stats.vertices = ((some (some 500) : Option (Option Int)).getD
        testRetopoModel.target_vertex_count).getD 0 ∧
      r.retopology_info.target_vertex_count =
        (some (some 500) : Option (Option Int)).getD
          testRetopoModel.target_vertex_count ∧
      ∀ v, (some (some 500) : Option (Option Int)) = some v →
        r.retopology_info.target_vertex_count = v := by
  exact target_vertex_count_override testRetopoModel (fun _ => true)
    { mesh_path := some meshObj, output_format := Option.none,
      target_vertex_count := some (some 500), seed := Option.none }
    meshObj "obj" rfl rfl (by decide) rfl (by decide)

/-- C9: `_process_request` is deterministic — equal model attributes, equal
filesystem state and equal inputs give equal results; the retopology model
accepts a `seed` input but the result never depends on it; and the UV model
performs no validation on `pack_method` (the raised exception is independent
of it) and only echoes its resolved value in `uv_info`. -/
theorem process_request_deterministic :
    (∀ (mr₁ mr₂ : MeshRetopologyModel) (fs₁ fs₂ : PyPath → Bool)
        (i₁ i₂ : RetopoInputs), mr₁ = mr₂ → fs₁ = fs₂ → i₁ = i₂ →
        mr₁.process_request fs₁ i₁ = mr₂.process_request fs₂ i₂) ∧
    (∀ (mu₁ mu₂ : UVUnwrappingModel) (fs₁ fs₂ : PyPath → Bool)
        (i₁ i₂ : UVInputs), mu₁ = mu₂ → fs₁ = fs₂ → i₁ = i₂ →
        mu₁.process_request fs₁ i₁ = mu₂.process_request fs₂ i₂) ∧
    (∀ (mr : MeshRetopologyModel) (fs : PyPath → Bool) (i : RetopoInputs)
        (s₁ s₂ : Option PyVal),
        mr.process_request fs { i with seed := s₁ } =
          mr.process_request fs { i with seed := s₂ }) ∧
    (∀ (mu : UVUnwrappingModel) (fs : PyPath → Bool) (i : UVInputs)
        (p₁ p₂ : Option PyVal),
        errorOf (mu.process_request fs { i with pack_method := p₁ }) =
          errorOf (mu.process_request fs { i with pack_method := p₂ })) ∧
    ∀ (mu : UVUnwrappingModel) (fs : PyPath → Bool) (i : UVInputs)
        (r : UVResult), mu.process_request fs i = .ok r →
        r.uv_info.pack_method = i.pack_method.getD (.str "blender") := by
  refine ⟨?_, ?_, ?_, ?_, ?_⟩
  · intro mr₁ mr₂ fs₁ fs₂ i₁ i₂ hm hf hi
    rw [hm, hf, hi]
  · intro mu₁ mu₂ fs₁ fs₂ i₁ i₂ hm hf hi
    rw [hm, hf, hi]
  · intro mr fs i s₁ s₂
    obtain ⟨mp, of, tvc, sd⟩ := i
    rfl
  · intro mu fs i p₁ p₂
    obtain ⟨mp, of, dt, pm, sp⟩ := i
    rcases mp with _ | p
    · rfl
    · by_cases hfs : fs p = false
      · simp [UVUnwrappingModel.process_request, hfs]
      · have hfs' : fs p = true := by revert hfs; cases fs p <;> simp
        by_cases hin : inputFormatOf p ∈ mu.supported_input_formats
        · cases hout : pyValMem (resolvedOutputFormat of)
              mu.supported_output_formats <;>
            simp [UVUnwrappingModel.process_request, hfs', hin, hout, errorOf]
        · simp [UVUnwrappingModel.process_request, hfs', hin, errorOf]
  · intro mu fs i r h
    obtain ⟨mp, of, dt, pm, sp⟩ := i
    rcases mp with _ | p
    · simp [UVUnwrappingModel.process_request] at h
    · by_cases hfs : fs p = false
      · simp [UVUnwrappingModel.process_request, hfs] at h
      · have hfs' : fs p = true := by revert hfs; cases fs p <;> simp
        by_cases hin : inputFormatOf p ∈ mu.supported_input_formats
        · cases hout : pyValMem (resolvedOutputFormat of)
              mu.supported_output_formats
          · simp [UVUnwrappingModel.process_request, hfs', hin, hout] at h
          · simp [UVUnwrappingModel.process_request, hfs', hin, hout] at h
            subst h
            rfl
        · simp [UVUnwrappingModel.process_request, hfs', hin] at h

/-- Witness for C9, instantiating every component at concrete values: seeds
42 and 7 give the same retopology result, two arbitrary `pack_method` values
give the same (absent) exception, and the echoed `pack_method` of a
successful UV call is the value that was passed. -/
theorem process_request_deterministic_witness :
    testRetopoModel.process_request (fun _ => true)
        { retopoIn meshObj Option.none with seed := some (.int 42) } =
      testRetopoModel.process_request (fun _ => true)
        { retopoIn meshObj Option.none with seed := some (.int 7) } ∧
    errorOf (testUVModel.process_request (fun _ => true)
        { uvIn meshObj Option.none with pack_method := some (.str "uvpackmaster") }) =
      errorOf (testUVModel.process_request (fun _ => true)
        { uvIn meshObj Option.none with pack_method := some (.int 3) }) ∧
    ∀ r, testUVModel.process_request (fun _ => true)
        { uvIn meshObj Option.none with pack_method := some (.str "uvpackmaster") } =
        .ok r → r.uv_info.pack_method = PyVal.str "uvpackmaster" := by
  refine ⟨?_, ?_, ?_⟩
  · exact process_request_deterministic.2.2.1 testRetopoModel (fun _ => true)
      (retopoIn meshObj Option.none) (some (.int 42)) (some (.int 7))
  · exact process_request_deterministic.2.2.2.1 testUVModel (fun _ => true)
      (uvIn meshObj Option.none) (some (.str "uvpackmaster")) (some (.int 3))
  · intro r h
    exact process_request_deterministic.2.2.2.2 testUVModel (fun _ => true)
      { uvIn meshObj Option.none with pack_method := some (.str "uvpackmaster") }
      r h

/-- C6: `get_supported_formats` and `get_model_info` of both models are pure
introspection. In this embedding they are functions of the model record (the
source bodies only read attributes and build dictionaries, so the model's
attributes are left unchanged by construction), and their return values are
fully determined by the attributes the claim names: the two format lists for
`get_supported_formats`; the base info plus `target_vertex_count`
(resp. `distortion_threshold`) for `get_model_info`. -/
theorem introspection_pure_and_determined :
    (∀ m₁ m₂ : MeshRetopologyModel,
        m₁.supported_input_formats = m₂.supported_input_formats →
        m₁.supported_output_formats = m₂.supported_output_formats →
        m₁.get_supported_formats = m₂.get_supported_formats) ∧
    (∀ m₁ m₂ : MeshRetopologyModel, m₁.get_info = m₂.get_info →
        m₁.target_vertex_count = m₂.target_vertex_count →
        m₁.get_model_info = m₂.get_model_info) ∧
    (∀ u₁ u₂ : UVUnwrappingModel,
        u₁.supported_input_formats = u₂.supported_input_formats →
        u₁.supported_output_formats = u₂.supported_output_formats →
        u₁.get_supported_formats = u₂.get_supported_formats) ∧
    ∀ u₁ u₂ : UVUnwrappingModel, u₁.get_info = u₂.get_info →
        u₁.distortion_threshold = u₂.distortion_threshold →
        u₁.get_model_info = u₂.get_model_info := by
  refine ⟨?_, ?_, ?_, ?_⟩
  · intro m₁ m₂ h₁ h₂
    simp [MeshRetopologyModel.get_supported_formats, h₁, h₂]
  · intro m₁ m₂ h₁ h₂
    simp [MeshRetopologyModel.get_model_info, h₁, h₂]
  · intro u₁ u₂ h₁ h₂
    simp [UVUnwrappingModel.get_supported_formats, h₁, h₂]
  · intro u₁ u₂ h₁ h₂
    simp [UVUnwrappingModel.get_model_info, h₁, h₂]

/-- Witness for C6 at two identically-attributed concrete models. -/
theorem introspection_pure_and_determined_witness :
    testRetopoModel.get_supported_formats =
        (mkMeshRetopologyModel "retopo_default" "/weights/retopo" 4096
          Option.none Option.none Option.none).get_supported_formats ∧
      testUVModel.get_model_info =
        (mkUVUnwrappingModel "uv_default" "/weights/uv" 4096
          Option.none Option.none (5/4)).get_model_info := by
  constructor
  · exact introspection_pure_and_determined.1 testRetopoModel
      (mkMeshRetopologyModel "retopo_default" "/weights/retopo" 4096
        Option.none Option.none Option.none) rfl rfl
  · exact introspection_pure_and_determined.2.2.2 testUVModel
      (mkUVUnwrappingModel "uv_default" "/weights/uv" 4096
        Option.none Option.none (5/4)) rfl rfl

/-- Scaling a positive dimension by the minimum of the two shrink factors
lands at or below the 2048 limit. -/
theorem floor_mul_min_le (a b : Nat) (ha : 0 < a) :
    (⌊(a : ℚ) * min (2048 / (a : ℚ)) (2048 / (b : ℚ))⌋).toNat ≤ 2048 := by
  have ha' : (0 : ℚ) < a := by exact_mod_cast ha
  have hle : (a : ℚ) * min (2048 / (a : ℚ)) (2048 / (b : ℚ)) ≤ 2048 := by
    have h1 : min (2048 / (a : ℚ)) (2048 / (b : ℚ)) ≤ 2048 / (a : ℚ) :=
      min_le_left _ _
    have h2 : (a : ℚ) * (2048 / (a : ℚ)) = 2048 := by
      field_simp
    calc (a : ℚ) * min (2048 / (a : ℚ)) (2048 / (b : ℚ))
        ≤ (a : ℚ) * (2048 / (a : ℚ)) :=
          mul_le_mul_of_nonneg_left h1 (le_of_lt ha')
      _ = 2048 := h2
  have hfl : ⌊(a : ℚ) * min (2048 / (a : ℚ)) (2048 / (b : ℚ))⌋ ≤ 2048 := by
    have hmono := Int.floor_le_floor hle
    simpa using hmono
  omega

/-- C10: `upload_image` enforces the 2048-pixel limit — an image whose width
or height exceeds 2048 is rescaled by the single factor
`min(2048/width, 2048/height)` (both dimensions truncated to integers, so the
aspect ratio is preserved up to the truncation), leaving both resulting
dimensions at most 2048; an image already within the limit keeps its
dimensions (and is uploaded unmodified). -/
theorem upload_image_resize_bound (w h : Nat) (hw : 0 < w) (hh : 0 < h) :
    (w ≤ 2048 ∧ h ≤ 2048 → resizeDims w h = (w, h)) ∧
      (2048 < w ∨ 2048 < h →
        resizeDims w h =
          ((⌊(w : ℚ) * min (2048 / (w : ℚ)) (2048 / (h : ℚ))⌋).toNat,
            (⌊(h : ℚ) * min (2048 / (w : ℚ)) (2048 / (h : ℚ))⌋).toNat)) ∧
      (resizeDims w h).1 ≤ 2048 ∧ (resizeDims w h).2 ≤ 2048 := by
  refine ⟨?_, ?_, ?_, ?_⟩
  · intro hle
    have hc : ¬(2048 < w ∨ 2048 < h) := by omega
    simp [resizeDims, hc]
  · intro hgt
    simp [resizeDims, hgt]
  · by_cases hc : 2048 < w ∨ 2048 < h
    · simpa [resizeDims, hc] using floor_mul_min_le w h hw
    · simp [resizeDims, hc]
      omega
  · by_cases hc : 2048 < w ∨ 2048 < h
    · have := floor_mul_min_le h w hh
      rw [min_comm] at this
      simpa [resizeDims, hc] using this
    · simp [resizeDims, hc]
      omega

/-- Witness for C10: a 100×2048 image is left unmodified, and a 4096×1024
image is rescaled to 2048×512 with both dimensions within the limit. -/
theorem upload_image_resize_bound_witness :
    resizeDims 100 2048 = (100, 2048) ∧ resizeDims 4096 1024 = (2048, 512) ∧
      (resizeDims 4096 1024).1 ≤ 2048 ∧ (resizeDims 4096 1024).2 ≤ 2048 := by
  have h1 := upload_image_resize_bound 100 2048 (by norm_num) (by norm_num)
  have h2 := upload_image_resize_bound 4096 1024 (by norm_num) (by norm_num)
  refine ⟨h1.1 ⟨by norm_num, le_refl _⟩, ?_, h2.2.2.1, h2.2.2.2⟩
  have h3 := h2.2.1 (Or.inl (by norm_num))
  rw [h3]
  norm_num
  exact ⟨rfl, rfl⟩

end ThreeDAIGC
